import Mathlib

/-!
Shallow embedding of `src/preview.cpp` from the Distributed-Renderer
repository: the display/preview layer of a GPU path tracer.

The C++ file is glue code over GLFW / OpenGL / CUDA interop.  We embed it
as state-passing functions that, besides updating the mutable globals
(`pbo`, `displayImage`, the handle bookkeeping), emit a trace of API-call
events.  External inputs (success of `glfwInit`, `glfwCreateWindow`,
`glewInit`, the `width`/`height` globals from `main.h`, the per-frame
window-should-close flag and the external `iteration` counter written by
`runCuda`) are collected in an `Env` record.  Machine `int` arithmetic is
modelled as 32-bit two's-complement wraparound on `Int`.
-/

set_option autoImplicit false
set_option linter.unusedVariables false

namespace Preview

/-- OpenGL buffer-binding targets used by `preview.cpp`. -/
inductive BufTarget where
  | arrayBuffer
  | elementArrayBuffer
  | pixelUnpackBuffer
deriving DecidableEq, Repr

/-- Payload of a `glBufferData` call: the quad's vertex/texcoord arrays
(pairs of exact coordinates; the source floats are all -1.0, 0.0 or 1.0),
the `GLushort` index array, or an uninitialized allocation of a given
byte size (the PBO). -/
inductive BufPayload where
  | vec2s (data : List (Int × Int))
  | ushorts (data : List Nat)
  | raw (size : Int)
deriving DecidableEq, Repr

/-- One emitted API call.  Constructors carry the arguments that matter
for the claims.  `threadCreate` and `syncOp` are in the vocabulary so
that absence of concurrency primitives is a statement about traces; the
source contains no call that would emit them.  `sendPacket` likewise
models the network send of the commented-out `packThisShit`. -/
inductive Event where
  | glfwSetErrorCallback
  | glfwInitCall
  | exitProcess (code : Int)
  | glfwCreateWindow (w h : Int) (title : String)
  | glfwTerminate
  | glfwMakeContextCurrent
  | glfwSetKeyCallback
  | glewInitCall
  | glGenTextures (handle : Nat)
  | glBindTexture (handle : Nat)
  | glTexParameteri
  | glTexImage2Drgba8 (w h : Int)
  | glGenBuffers (count : Nat) (firstHandle : Nat)
  | glBindBuffer (target : BufTarget) (handle : Nat)
  | glBufferData (target : BufTarget) (payload : BufPayload)
  | glVertexAttribPointer (location : Nat) (size : Nat)
  | glEnableVertexAttribArray (location : Nat)
  | createDefaultProgram (handle : Nat)
  | glGetUniformLocation (name : String)
  | glUniform1i (v : Int)
  | glUseProgram (handle : Nat)
  | glActiveTexture
  | cudaGLSetGLDevice (dev : Nat)
  | atexitRegister
  | cudaGLRegisterBufferObject (handle : Nat)
  | cudaGLUnregisterBufferObject (handle : Nat)
  | glDeleteBuffers (handle : Nat)
  | glDeleteTextures (handle : Nat)
  | glfwPollEvents
  | runCuda
  | glfwSetWindowTitle (title : String)
  | glTexSubImage2D (w h : Int)
  | glClear
  | glDrawElements (count : Nat)
  | glfwSwapBuffers
  | shouldCloseCheck (k : Nat) (result : Bool)
  | glfwDestroyWindow
  | sendPacket
  | threadCreate
  | syncOp
deriving DecidableEq, Repr

/-- The mutable globals of `preview.cpp` plus bookkeeping of which GL
handles are currently allocated.  Handle counters start at 1: GL object
names returned by `glGen*`/`glCreateProgram` are nonzero. -/
structure GLState where
  pbo : Nat := 0
  displayImage : Nat := 0
  windowCreated : Bool := false
  nextBufferId : Nat := 1
  nextTextureId : Nat := 1
  nextProgramId : Nat := 1
  aliveBuffers : List Nat := []
  aliveTextures : List Nat := []
  alivePrograms : List Nat := []
  cudaRegistered : List Nat := []
  usedProgram : Nat := 0
  atexitHooks : Nat := 0
deriving DecidableEq, Repr

/-- External inputs of one program execution: whether each fallible
library call succeeds, whether the `u_image` uniform is found, the
`width`/`height` globals (externals from `main.h`), the value of the
window's should-close flag at its `k`-th check, and the value of the
external global `iteration` when frame `k` reads it (it is written by
the external `runCuda`). -/
structure Env where
  glfwInitOk : Bool
  createWindowOk : Bool
  glewInitOk : Bool
  uImageFound : Bool
  width : Int
  height : Int
  shouldClose : Nat → Bool
  iterationAt : Nat → Int

/-- `EXIT_FAILURE` as used by `exit(EXIT_FAILURE)`. -/
def EXIT_FAILURE : Int := 1

/-- Reduction of a mathematical integer to 32-bit two's-complement,
the wraparound behaviour of a C `int`. -/
def toInt32 (n : Int) : Int := (n + 2 ^ 31) % 2 ^ 32 - 2 ^ 31

/-- Modelled from the spec: `utilityCore::convertIntToString` (from the
repository's utility code, not included under `src/`) renders an integer
in decimal, as used for the per-frame iteration count in the window
title. -/
def convertIntToString (n : Int) : String := toString n

/-- Modelled from the spec: the external `PacketManager` collaborator
(network packetization lives outside this file); opaque here, `mainLoop`
never inspects it. -/
structure PacketManager where
  id : Nat := 0

/-- The quad vertices uploaded by `initVAO`: the four clip-space corners. -/
def vertices : List (Int × Int) := [(-1, -1), (1, -1), (1, 1), (-1, 1)]

/-- The texture coordinates uploaded by `initVAO`, one per vertex. -/
def texcoords : List (Int × Int) := [(1, 1), (0, 1), (0, 0), (1, 0)]

/-- The `GLushort` index array uploaded by `initVAO`. -/
def indices : List Nat := [0, 1, 3, 3, 1, 2]

/-- `initTextures`: generate the `displayImage` texture, bind it, set
filtering, and allocate an RGBA8 image of `width` by `height`. -/
def initTextures (w h : Int) (s : GLState) : GLState × List Event :=
  let t := s.nextTextureId
  ({ s with displayImage := t
            nextTextureId := t + 1
            aliveTextures := t :: s.aliveTextures },
   [Event.glGenTextures t, Event.glBindTexture t,
    Event.glTexParameteri, Event.glTexParameteri,
    Event.glTexImage2Drgba8 w h])

/-- `initVAO`: generate three buffers and upload the quad's vertices,
texture coordinates and indices as the code's literal arrays. -/
def initVAO (s : GLState) : GLState × List Event :=
  let b := s.nextBufferId
  ({ s with nextBufferId := b + 3
            aliveBuffers := b :: (b + 1) :: (b + 2) :: s.aliveBuffers },
   [Event.glGenBuffers 3 b,
    Event.glBindBuffer BufTarget.arrayBuffer b,
    Event.glBufferData BufTarget.arrayBuffer (BufPayload.vec2s vertices),
    Event.glVertexAttribPointer 0 2,
    Event.glEnableVertexAttribArray 0,
    Event.glBindBuffer BufTarget.arrayBuffer (b + 1),
    Event.glBufferData BufTarget.arrayBuffer (BufPayload.vec2s texcoords),
    Event.glVertexAttribPointer 1 2,
    Event.glEnableVertexAttribArray 1,
    Event.glBindBuffer BufTarget.elementArrayBuffer (b + 2),
    Event.glBufferData BufTarget.elementArrayBuffer (BufPayload.ushorts indices)])

/-- `initShader`: create the passthrough program via
`glslUtility::createDefaultProgram`, look up the `u_image` uniform and,
when found (`location != -1`), set it to texture unit 0.  Returns the
program handle as the C function does. -/
def initShader (env : Env) (s : GLState) : GLState × Nat × List Event :=
  let p := s.nextProgramId
  let lookupEvents :=
    if env.uImageFound then
      [Event.glGetUniformLocation "u_image", Event.glUniform1i 0]
    else
      [Event.glGetUniformLocation "u_image"]
  ({ s with nextProgramId := p + 1
            alivePrograms := p :: s.alivePrograms },
   p,
   Event.createDefaultProgram p :: lookupEvents)

/-- `deletePBO` body: the C function guards on its pointer argument,
which at the only call site is `&pbo` and never null, so the body always
runs: unregister the buffer from CUDA, bind and delete it, and null the
global handle. -/
def deletePBO (s : GLState) : GLState × List Event :=
  ({ s with pbo := 0
            aliveBuffers := s.aliveBuffers.erase s.pbo
            cudaRegistered := s.cudaRegistered.erase s.pbo },
   [Event.cudaGLUnregisterBufferObject s.pbo,
    Event.glBindBuffer BufTarget.arrayBuffer s.pbo,
    Event.glDeleteBuffers s.pbo])

/-- `deleteTexture`: delete the texture and null the global handle. -/
def deleteTexture (s : GLState) : GLState × List Event :=
  ({ s with displayImage := 0
            aliveTextures := s.aliveTextures.erase s.displayImage },
   [Event.glDeleteTextures s.displayImage])

/-- `cleanupCuda`: delete the PBO if the `pbo` global is nonzero, then
delete the texture if the `displayImage` global is nonzero. -/
def cleanupCuda (s : GLState) : GLState × List Event :=
  let step1 := if s.pbo ≠ 0 then deletePBO s else (s, [])
  let step2 :=
    if step1.1.displayImage ≠ 0 then deleteTexture step1.1 else (step1.1, [])
  (step2.1, step1.2 ++ step2.2)

/-- `initCuda`: select GL device 0 for CUDA and register `cleanupCuda`
as an `atexit` hook. -/
def initCuda (s : GLState) : GLState × List Event :=
  ({ s with atexitHooks := s.atexitHooks + 1 },
   [Event.cudaGLSetGLDevice 0, Event.atexitRegister])

/-- The byte size `initPBO` computes for the pixel buffer, following the
source's C `int` arithmetic: `num_texels = width * height`, `num_values
= num_texels * 4`, `size_tex_data = sizeof(GLubyte) * num_values` with
`sizeof(GLubyte) = 1`, each step reduced to 32-bit. -/
def size_tex_data (w h : Int) : Int :=
  let num_texels := toInt32 (w * h)
  let num_values := toInt32 (num_texels * 4)
  toInt32 (1 * num_values)

/-- `initPBO`: generate a buffer, store its name in the `pbo` global,
bind it as the unpack buffer, allocate `size_tex_data` bytes and
register the buffer with CUDA. -/
def initPBO (w h : Int) (s : GLState) : GLState × List Event :=
  let b := s.nextBufferId
  ({ s with pbo := b
            nextBufferId := b + 1
            aliveBuffers := b :: s.aliveBuffers
            cudaRegistered := b :: s.cudaRegistered },
   [Event.glGenBuffers 1 b,
    Event.glBindBuffer BufTarget.pixelUnpackBuffer b,
    Event.glBufferData BufTarget.pixelUnpackBuffer
      (BufPayload.raw (size_tex_data w h)),
    Event.cudaGLRegisterBufferObject b])

/-- Result of `init`: either the process terminated inside it (the
`exit(EXIT_FAILURE)` branch) or it returned a boolean. -/
inductive InitResult where
  | exited (code : Int)
  | returned (b : Bool)
deriving DecidableEq, Repr

/-- `init`: set the error callback; `exit(EXIT_FAILURE)` if `glfwInit`
fails; create the window, returning `false` after `glfwTerminate` if
that fails; make the context current and set the key callback; return
`false` if `glewInit` fails; otherwise run `initVAO`, `initTextures`,
`initCuda`, `initPBO`, `initShader`, use the program, select texture
unit 0 and return `true`. -/
def init (env : Env) : InitResult × GLState × List Event :=
  let s0 : GLState := {}
  let ev0 := [Event.glfwSetErrorCallback, Event.glfwInitCall]
  if env.glfwInitOk = false then
    (InitResult.exited EXIT_FAILURE, s0, ev0 ++ [Event.exitProcess EXIT_FAILURE])
  else
    let ev1 := ev0 ++ [Event.glfwCreateWindow env.width env.height "CIS 565 Path Tracer"]
    if env.createWindowOk = false then
      (InitResult.returned false, s0, ev1 ++ [Event.glfwTerminate])
    else
      let s1 := { s0 with windowCreated := true }
      let ev2 := ev1 ++ [Event.glfwMakeContextCurrent, Event.glfwSetKeyCallback,
                         Event.glewInitCall]
      if env.glewInitOk = false then
        (InitResult.returned false, s1, ev2)
      else
        let r1 := initVAO s1
        let r2 := initTextures env.width env.height r1.1
        let r3 := initCuda r2.1
        let r4 := initPBO env.width env.height r3.1
        let r5 := initShader env r4.1
        (InitResult.returned true, { r5.1 with usedProgram := r5.2.1 },
         ev2 ++ r1.2 ++ r2.2 ++ r3.2 ++ r4.2 ++ r5.2.2 ++
           [Event.glUseProgram r5.2.1, Event.glActiveTexture])

/-- The window title built each frame at line 219 of the source. -/
def windowTitle (iteration : Int) : String :=
  "CIS565 Path Tracer | " ++ convertIntToString iteration ++ " Iterations"

/-- The body of one render-loop iteration (frame `k`): poll events, run
the CUDA render step, set the window title, bind the PBO and the display
texture, copy the buffer into the texture, clear, draw the six quad
indices, swap buffers. -/
def frameEvents (env : Env) (s : GLState) (k : Nat) : List Event :=
  [Event.glfwPollEvents,
   Event.runCuda,
   Event.glfwSetWindowTitle (windowTitle (env.iterationAt k)),
   Event.glBindBuffer BufTarget.pixelUnpackBuffer s.pbo,
   Event.glBindTexture s.displayImage,
   Event.glTexSubImage2D env.width env.height,
   Event.glClear,
   Event.glDrawElements 6,
   Event.glfwSwapBuffers]

/-- The `while (!glfwWindowShouldClose(window))` loop starting at check
number `k`, with explicit fuel so the (possibly nonterminating) C loop
is total here; each iteration first records the flag check, then runs
the frame body if the flag is unset.  The loop body mutates no global
state (the network block is commented out), so `s` is threaded
unchanged. -/
def loopFrom (env : Env) (s : GLState) (k : Nat) : Nat → List Event
  | 0 => []
  | fuel + 1 =>
    Event.shouldCloseCheck k (env.shouldClose k) ::
      (if env.shouldClose k then []
       else frameEvents env s k ++ loopFrom env s (k + 1) fuel)

/-- `mainLoop`: call `init` discarding its boolean result, run the
render loop, then destroy the window and terminate GLFW.  If `init`
exits the process, nothing after it runs.  The `pMgr` and `client_ip`
parameters are received but never used (the network code is commented
out). -/
def mainLoop (pMgr : PacketManager) (client_ip : String) (env : Env)
    (fuel : Nat) : List Event :=
  match init env with
  | (InitResult.exited _, _, ev) => ev
  | (InitResult.returned _, s, ev) =>
    ev ++ loopFrom env s 0 fuel ++ [Event.glfwDestroyWindow, Event.glfwTerminate]

/-- Spec-side description of `n` completed loop iterations starting at
frame `k`: each is the flag check (unset) followed by the explicit
ordered frame block. -/
def framesTrace (env : Env) (s : GLState) (k : Nat) : Nat → List Event
  | 0 => []
  | n + 1 =>
    (Event.shouldCloseCheck k false ::
      [Event.glfwPollEvents,
       Event.runCuda,
       Event.glfwSetWindowTitle (windowTitle (env.iterationAt k)),
       Event.glBindBuffer BufTarget.pixelUnpackBuffer s.pbo,
       Event.glBindTexture s.displayImage,
       Event.glTexSubImage2D env.width env.height,
       Event.glClear,
       Event.glDrawElements 6,
       Event.glfwSwapBuffers]) ++ framesTrace env s (k + 1) n

/-- Recognizer for the window-title event, used to count title updates
per frame. -/
def isSetWindowTitle (e : Event) : Bool :=
  match e with
  | Event.glfwSetWindowTitle _ => true
  | _ => false

/-- Recognizer for the events the source never performs: network sends,
thread creation and synchronization primitives. -/
def isNetworkOrThreadOp (e : Event) : Bool :=
  match e with
  | Event.sendPacket => true
  | Event.threadCreate => true
  | Event.syncOp => true
  | _ => false

/-- A concrete fully-successful environment: 800 by 600 window, the
should-close flag first observed set at check 2, `iteration` equal to
the frame number. -/
def envOk : Env :=
  { glfwInitOk := true, createWindowOk := true, glewInitOk := true,
    uImageFound := true, width := 800, height := 600,
    shouldClose := fun k => decide (2 ≤ k),
    iterationAt := fun k => (k : Int) }

/-- A concrete environment in which `glfwInit` fails and everything else
would succeed. -/
def envGlfwInitFails : Env :=
  { envOk with glfwInitOk := false }

/-- A concrete environment in which window creation fails. -/
def envWindowFails : Env :=
  { envOk with createWindowOk := false }

/-- If the should-close flag is first set at check `k + n`, the while
loop starting at check `k` (with enough fuel) performs exactly `n` full
frame iterations and stops at the set flag. -/
theorem loopFrom_eq_framesTrace (env : Env) (s : GLState) (n : Nat) :
    ∀ (k fuel : Nat), env.shouldClose (k + n) = true →
      (∀ j, j < n → env.shouldClose (k + j) = false) → n < fuel →
      loopFrom env s k fuel =
        framesTrace env s k n ++ [Event.shouldCloseCheck (k + n) true] := by
  induction n with
  | zero =>
    intro k fuel hn _ hfuel
    match fuel, hfuel with
    | fuel + 1, _ =>
      simp only [Nat.add_zero] at hn
      simp [loopFrom, framesTrace, hn]
  | succ n ih =>
    intro k fuel hn hmin hfuel
    match fuel, hfuel with
    | fuel + 1, hfuel =>
      have h0 : env.shouldClose k = false := by
        have := hmin 0 (Nat.succ_pos n)
        simpa using this
      have hn' : env.shouldClose (k + 1 + n) = true := by
        have he : k + 1 + n = k + (n + 1) := by omega
        rw [he]; exact hn
      have hmin' : ∀ j, j < n → env.shouldClose (k + 1 + j) = false := by
        intro j hj
        have he : k + 1 + j = k + (j + 1) := by omega
        rw [he]; exact hmin (j + 1) (by omega)
      have ihk := ih (k + 1) fuel hn' hmin' (by omega)
      have he2 : k + 1 + n = k + (n + 1) := by omega
      rw [he2] at ihk
      simp [loopFrom, framesTrace, h0, ihk, frameEvents]

/-- C2: every iteration of the render loop in `mainLoop` executes, in
order, the event poll, the external render step `runCuda`, (the title
update,) the copy of the rendered buffer into the display texture, the
draw and the buffer swap; if the window's should-close flag is first
observed set at check `n`, the loop body runs exactly `n` times and
never again afterwards: the trace is exactly `n` ordered frame blocks
followed by the final (set) flag check. -/
theorem renderLoop_frame_order_and_exit (env : Env) (s : GLState)
    (n fuel : Nat) (hn : env.shouldClose n = true)
    (hmin : ∀ j, j < n → env.shouldClose j = false) (hfuel : n < fuel) :
    loopFrom env s 0 fuel =
      framesTrace env s 0 n ++ [Event.shouldCloseCheck n true] := by
  have h := loopFrom_eq_framesTrace env s n 0 fuel (by simpa using hn)
    (by simpa using hmin) hfuel
  simpa using h

/-- Witness for C2 at `envOk` (flag set from check 2): two frames. -/
theorem renderLoop_frame_order_and_exit_witness :
    envOk.shouldClose 2 = true ∧ (∀ j, j < 2 → envOk.shouldClose j = false) ∧
    loopFrom envOk {} 0 3 =
      framesTrace envOk {} 0 2 ++ [Event.shouldCloseCheck 2 true] :=
  ⟨by decide, by decide,
   renderLoop_frame_order_and_exit envOk {} 2 3 (by decide) (by decide) (by decide)⟩

/-- C3: in every frame block the window title is set exactly once, as
the third event — after the render step `runCuda` (second event) — and
the title string embeds the decimal rendering of the current value of
the global iteration count. -/
theorem frame_title_once_after_render (env : Env) (s : GLState) (k : Nat) :
    frameEvents env s k =
      [Event.glfwPollEvents, Event.runCuda,
       Event.glfwSetWindowTitle
         ("CIS565 Path Tracer | " ++ convertIntToString (env.iterationAt k) ++
          " Iterations")] ++
      [Event.glBindBuffer BufTarget.pixelUnpackBuffer s.pbo,
       Event.glBindTexture s.displayImage,
       Event.glTexSubImage2D env.width env.height,
       Event.glClear, Event.glDrawElements 6, Event.glfwSwapBuffers] ∧
    (frameEvents env s k).countP (fun e => isSetWindowTitle e) = 1 := by
  constructor
  · rfl
  · rfl

/-- C6: `initVAO` uploads exactly the four clip-space corner vertices
(-1,-1), (1,-1), (1,1), (-1,1), one texture coordinate per vertex, and
the six indices 0,1,3,3,1,2; and every frame blits the PBO-backed
texture by binding the PBO and the texture, updating the texture from
the bound unpack buffer, and drawing those six indices. -/
theorem quad_setup_and_blit (s s2 : GLState) (env : Env) (k : Nat) :
    (initVAO s).2 =
      [Event.glGenBuffers 3 s.nextBufferId,
       Event.glBindBuffer BufTarget.arrayBuffer s.nextBufferId,
       Event.glBufferData BufTarget.arrayBuffer
         (BufPayload.vec2s [(-1, -1), (1, -1), (1, 1), (-1, 1)]),
       Event.glVertexAttribPointer 0 2,
       Event.glEnableVertexAttribArray 0,
       Event.glBindBuffer BufTarget.arrayBuffer (s.nextBufferId + 1),
       Event.glBufferData BufTarget.arrayBuffer (BufPayload.vec2s texcoords),
       Event.glVertexAttribPointer 1 2,
       Event.glEnableVertexAttribArray 1,
       Event.glBindBuffer BufTarget.elementArrayBuffer (s.nextBufferId + 2),
       Event.glBufferData BufTarget.elementArrayBuffer
         (BufPayload.ushorts [0, 1, 3, 3, 1, 2])] ∧
    vertices.length = 4 ∧ texcoords.length = vertices.length ∧
    frameEvents env s2 k =
      [Event.glfwPollEvents, Event.runCuda,
       Event.glfwSetWindowTitle (windowTitle (env.iterationAt k))] ++
      [Event.glBindBuffer BufTarget.pixelUnpackBuffer s2.pbo,
       Event.glBindTexture s2.displayImage,
       Event.glTexSubImage2D env.width env.height,
       Event.glClear,
       Event.glDrawElements 6,
       Event.glfwSwapBuffers] :=
  ⟨rfl, rfl, rfl, rfl⟩

/-- C9: one call of `cleanupCuda` leaves both the `pbo` and the
`displayImage` globals equal to zero, and a second call skips both null
guards: it deletes nothing, emits no events and leaves the state
unchanged. -/
theorem cleanupCuda_idempotent (s : GLState) :
    (cleanupCuda s).1.pbo = 0 ∧ (cleanupCuda s).1.displayImage = 0 ∧
    cleanupCuda (cleanupCuda s).1 = ((cleanupCuda s).1, []) := by
  by_cases hp : s.pbo = 0 <;> by_cases hd : s.displayImage = 0 <;>
    simp [cleanupCuda, deletePBO, deleteTexture, hp, hd]

/-- No event of a frame block is a network send, a thread creation or a
synchronization primitive. -/
theorem frameEvents_clean (env : Env) (s : GLState) (k : Nat) :
    ∀ e ∈ frameEvents env s k, isNetworkOrThreadOp e = false := by
  intro e he
  simp only [frameEvents, List.mem_cons, List.not_mem_nil, or_false] at he
  rcases he with rfl | rfl | rfl | rfl | rfl | rfl | rfl | rfl | rfl <;> rfl

/-- No event of the render loop is a network send, a thread creation or
a synchronization primitive. -/
theorem loopFrom_clean (env : Env) (s : GLState) :
    ∀ (fuel k : Nat), ∀ e ∈ loopFrom env s k fuel,
      isNetworkOrThreadOp e = false := by
  intro fuel
  induction fuel with
  | zero => intro k e he; simp [loopFrom] at he
  | succ f ih =>
    intro k e he
    rw [loopFrom] at he
    rcases List.mem_cons.mp he with rfl | he'
    · rfl
    · by_cases hc : env.shouldClose k
      · simp [hc] at he'
      · rw [if_neg hc] at he'
        rcases List.mem_append.mp he' with h | h
        · exact frameEvents_clean env s k e h
        · exact ih (k + 1) e h

/-- No event of the `init` trace is a network send, a thread creation
or a synchronization primitive. -/
theorem init_clean (env : Env) :
    ∀ e ∈ (init env).2.2, isNetworkOrThreadOp e = false := by
  rcases env with ⟨g, c, gl, u, w, h, sc, it⟩
  cases g <;> cases c <;> cases gl <;> cases u <;>
    simp [init, initVAO, initTextures, initCuda, initPBO, initShader,
      isNetworkOrThreadOp, List.forall_mem_cons, List.forall_mem_append]

/-- No event of the whole `mainLoop` trace is a network send, a thread
creation or a synchronization primitive. -/
theorem mainLoop_clean (pMgr : PacketManager) (client_ip : String)
    (env : Env) (fuel : Nat) :
    ∀ e ∈ mainLoop pMgr client_ip env fuel, isNetworkOrThreadOp e = false := by
  intro e he
  rcases hInit : init env with ⟨res, s, ev⟩
  have hev : ∀ x ∈ ev, isNetworkOrThreadOp x = false := by
    have := init_clean env
    rw [hInit] at this
    exact this
  cases res with
  | exited code =>
    rw [mainLoop, hInit] at he
    exact hev e he
  | returned b =>
    rw [mainLoop, hInit] at he
    rcases List.mem_append.mp he with h | h
    · rcases List.mem_append.mp h with h' | h'
      · exact hev e h'
      · exact loopFrom_clean env s fuel 0 e h'
    · simp only [List.mem_cons, List.not_mem_nil, or_false] at h
      rcases h with rfl | rfl <;> rfl

/-- C5: no wire protocol is implemented.  The trace of `mainLoop` is
independent of both the `PacketManager` argument and the client IP
argument (they are never read), and no network send event ever occurs
in it — the only packet-sending code is commented out. -/
theorem mainLoop_no_network (p1 p2 : PacketManager) (ip1 ip2 : String)
    (env : Env) (fuel : Nat) :
    mainLoop p1 ip1 env fuel = mainLoop p2 ip2 env fuel ∧
    ∀ e ∈ mainLoop p1 ip1 env fuel, e ≠ Event.sendPacket := by
  refine ⟨rfl, ?_⟩
  intro e he heq
  have h := mainLoop_clean p1 ip1 env fuel e he
  rw [heq] at h
  exact Bool.noConfusion h

/-- C7: `mainLoop` is single-threaded and cooperative.  Its trace never
contains a thread-creation or synchronization event, and each loop
iteration starts by checking the window's should-close flag, which alone
decides whether the body runs — the only cancellation mechanism. -/
theorem mainLoop_single_threaded (pMgr : PacketManager) (client_ip : String)
    (env : Env) (fuel : Nat) :
    (∀ e ∈ mainLoop pMgr client_ip env fuel,
       e ≠ Event.threadCreate ∧ e ≠ Event.syncOp) ∧
    (∀ (s : GLState) (k f : Nat),
       loopFrom env s k (f + 1) =
         Event.shouldCloseCheck k (env.shouldClose k) ::
           (if env.shouldClose k then []
            else frameEvents env s k ++ loopFrom env s (k + 1) f)) := by
  constructor
  · intro e he
    have h := mainLoop_clean pMgr client_ip env fuel e he
    constructor
    · intro heq; rw [heq] at h; exact Bool.noConfusion h
    · intro heq; rw [heq] at h; exact Bool.noConfusion h
  · intro s k f
    rfl

/-- C1 counterexample: in the environment where only the GLFW library
initialization fails, neither window creation nor the GL extension
loader fails, yet `init` does not return `true` — it terminates the
process with `EXIT_FAILURE`.  So initialization has a third failure
point and the claim's "otherwise it returns true" is false. -/
theorem init_two_failure_points_counterexample :
    envGlfwInitFails.createWindowOk = true ∧
    envGlfwInitFails.glewInitOk = true ∧
    (init envGlfwInitFails).1 ≠ InitResult.returned true ∧
    (init envGlfwInitFails).1 = InitResult.exited EXIT_FAILURE := by
  decide

/-- C1 amended: initialization has exactly three failure points, each
with no retry and no recovery.  If `glfwInit` fails the process
terminates immediately with `EXIT_FAILURE`; if it succeeds, `init`
returns `false` exactly when window creation or the GL extension loader
fails (terminating GLFW first in the window case), and returns `true`
exactly when both succeed. -/
theorem init_failure_points (env : Env) :
    (env.glfwInitOk = false →
      init env = (InitResult.exited EXIT_FAILURE, {},
        [Event.glfwSetErrorCallback, Event.glfwInitCall,
         Event.exitProcess EXIT_FAILURE])) ∧
    (env.glfwInitOk = true →
      (((init env).1 = InitResult.returned false) ↔
        (env.createWindowOk = false ∨ env.glewInitOk = false)) ∧
      (((init env).1 = InitResult.returned true) ↔
        (env.createWindowOk = true ∧ env.glewInitOk = true))) := by
  rcases env with ⟨g, c, gl, u, w, h, sc, it⟩
  cases g <;> cases c <;> cases gl <;> cases u <;>
    simp [init, initVAO, initTextures, initCuda, initPBO, initShader]

/-- Witness for C1 at the failing-`glfwInit` environment. -/
theorem init_failure_points_witness :
    init envGlfwInitFails = (InitResult.exited EXIT_FAILURE, {},
      [Event.glfwSetErrorCallback, Event.glfwInitCall,
       Event.exitProcess EXIT_FAILURE]) :=
  (init_failure_points envGlfwInitFails).1 rfl

/-- C8: `mainLoop` ignores the boolean result of `init`.  Whenever
`init` returns `false`, `mainLoop` still proceeds into the render loop
(its trace continues with the loop and the shutdown calls, and with any
fuel it reaches the first should-close check of the loop). -/
theorem mainLoop_ignores_init_result (p : PacketManager) (ip : String)
    (env : Env) (fuel : Nat)
    (hfalse : (init env).1 = InitResult.returned false) :
    mainLoop p ip env fuel =
      (init env).2.2 ++ loopFrom env (init env).2.1 0 fuel ++
        [Event.glfwDestroyWindow, Event.glfwTerminate] ∧
    (0 < fuel →
      Event.shouldCloseCheck 0 (env.shouldClose 0) ∈ mainLoop p ip env fuel) := by
  rcases hInit : init env with ⟨res, s, ev⟩
  rw [hInit] at hfalse
  simp only at hfalse
  subst hfalse
  constructor
  · rw [mainLoop, hInit]
  · intro hf
    match fuel, hf with
    | f + 1, _ =>
      rw [mainLoop, hInit]
      simp [loopFrom]

/-- Witness for C8: with window creation failing, `init` returns
`false` and the loop is still entered. -/
theorem mainLoop_ignores_init_result_witness :
    (init envWindowFails).1 = InitResult.returned false ∧
    Event.shouldCloseCheck 0 (envWindowFails.shouldClose 0) ∈
      mainLoop {} "" envWindowFails 1 :=
  ⟨by decide,
   (mainLoop_ignores_init_result {} "" envWindowFails 1 (by decide)).2
     (by decide)⟩

/-- C4 counterexample: in the fully successful environment, after the
exit-time hook `cleanupCuda` (registered by `initCuda`) runs on the
post-`init` state, the shader program handle in use is still allocated:
the hook never releases it, refuting "every one of these three handles
has been released". -/
theorem cleanup_hook_counterexample :
    (init envOk).2.1.usedProgram = 1 ∧
    ((cleanupCuda (init envOk).2.1).1).alivePrograms = [1] ∧
    (init envOk).2.1.usedProgram ∈
      ((cleanupCuda (init envOk).2.1).1).alivePrograms := by
  decide

/-- C4 amended: the texture handle and the pixel buffer handle live
until the exit-time hook `cleanupCuda` (registered exactly once, by
`initCuda`) and are both released by it — the PBO also unregistered
from CUDA — while the shader program handle is never released by the
hook. -/
theorem cleanup_hook_releases_pbo_and_texture (env : Env)
    (h1 : env.glfwInitOk = true) (h2 : env.createWindowOk = true)
    (h3 : env.glewInitOk = true) :
    (init env).2.1.atexitHooks = 1 ∧
    (init env).2.1.pbo ≠ 0 ∧ (init env).2.1.displayImage ≠ 0 ∧
    (cleanupCuda (init env).2.1).1.pbo = 0 ∧
    (cleanupCuda (init env).2.1).1.displayImage = 0 ∧
    (init env).2.1.pbo ∉ (cleanupCuda (init env).2.1).1.aliveBuffers ∧
    (init env).2.1.displayImage ∉ (cleanupCuda (init env).2.1).1.aliveTextures ∧
    (init env).2.1.pbo ∉ (cleanupCuda (init env).2.1).1.cudaRegistered ∧
    (cleanupCuda (init env).2.1).1.alivePrograms = (init env).2.1.alivePrograms ∧
    (init env).2.1.usedProgram ∈ (cleanupCuda (init env).2.1).1.alivePrograms := by
  rcases env with ⟨g, c, gl, u, w, h, sc, it⟩
  subst h1; subst h2; subst h3
  cases u <;>
    simp [init, initVAO, initTextures, initCuda, initPBO, initShader,
      cleanupCuda, deletePBO, deleteTexture]

/-- Witness for C4 at the fully successful environment. -/
theorem cleanup_hook_releases_pbo_and_texture_witness :
    (init envOk).2.1.atexitHooks = 1 ∧
    (init envOk).2.1.pbo ≠ 0 ∧ (init envOk).2.1.displayImage ≠ 0 ∧
    (cleanupCuda (init envOk).2.1).1.pbo = 0 ∧
    (cleanupCuda (init envOk).2.1).1.displayImage = 0 ∧
    (init envOk).2.1.pbo ∉ (cleanupCuda (init envOk).2.1).1.aliveBuffers ∧
    (init envOk).2.1.displayImage ∉ (cleanupCuda (init envOk).2.1).1.aliveTextures ∧
    (init envOk).2.1.pbo ∉ (cleanupCuda (init envOk).2.1).1.cudaRegistered ∧
    (cleanupCuda (init envOk).2.1).1.alivePrograms = (init envOk).2.1.alivePrograms ∧
    (init envOk).2.1.usedProgram ∈ (cleanupCuda (init envOk).2.1).1.alivePrograms :=
  cleanup_hook_releases_pbo_and_texture envOk rfl rfl rfl

/-- `toInt32` is the identity on the 32-bit range. -/
theorem toInt32_of_bounds (n : Int) (h1 : -(2 ^ 31) ≤ n) (h2 : n < 2 ^ 31) :
    toInt32 n = n := by
  unfold toInt32
  rw [Int.emod_eq_of_lt (by omega) (by omega)]
  omega

/-- C10: with nonnegative dimensions whose pixel-byte count fits a
32-bit `int`, the buffer allocated by `initPBO` has size exactly
`width * height * 4` bytes (one 4-channel 8-bit texel per pixel,
computed exactly), and `initTextures` allocates the RGBA8 display
texture with the same `width` by `height` dimensions. -/
theorem pbo_size_matches_texture (w h : Int) (s s2 : GLState)
    (hw : 0 ≤ w) (hh : 0 ≤ h) (hbound : w * h * 4 < 2 ^ 31) :
    size_tex_data w h = w * h * 4 ∧
    Event.glBufferData BufTarget.pixelUnpackBuffer (BufPayload.raw (w * h * 4))
      ∈ (initPBO w h s).2 ∧
    Event.glTexImage2Drgba8 w h ∈ (initTextures w h s2).2 := by
  have hwh : 0 ≤ w * h := mul_nonneg hw hh
  have e1 : toInt32 (w * h) = w * h := toInt32_of_bounds _ (by omega) (by omega)
  have e2 : toInt32 (w * h * 4) = w * h * 4 :=
    toInt32_of_bounds _ (by omega) (by omega)
  have hsize : size_tex_data w h = w * h * 4 := by
    show toInt32 (1 * toInt32 (toInt32 (w * h) * 4)) = w * h * 4
    rw [e1, e2, one_mul, e2]
  refine ⟨hsize, ?_, ?_⟩
  · rw [← hsize]
    simp [initPBO]
  · simp [initTextures]

/-- Witness for C10 at an 800 by 600 window. -/
theorem pbo_size_matches_texture_witness :
    size_tex_data 800 600 = 800 * 600 * 4 ∧
    Event.glBufferData BufTarget.pixelUnpackBuffer
      (BufPayload.raw (800 * 600 * 4)) ∈ (initPBO 800 600 {}).2 ∧
    Event.glTexImage2Drgba8 800 600 ∈ (initTextures 800 600 {}).2 :=
  pbo_size_matches_texture 800 600 {} {} (by decide) (by decide) (by decide)

end Preview
